import Mathlib

/-!
Verification of the `ic_siwb` core (Sign-In With Bitcoin) against its Rust source:
the challenge lifecycle (`src/siwb.rs`, `src/login.rs`), the ECDSA "signmessage" and
BIP-322 "simple" verification pipelines (`src/login.rs`), and prefix-driven address
classification (`src/utils.rs`).

Modelling conventions:
* Bytes are `Nat` values below 256; byte strings are `List Nat`.
* Machine integers are `Nat` (or `Int` where Rust uses signed types) with explicit
  truncation by `% 2^w` where the Rust code wraps or casts.
* Rust indexing and slicing that can panic is modelled with `Option`: `none` is a panic.
* Fallible Rust functions returning `Result` are modelled with `Except` or `Option`.
* External library primitives (the bitcoin address codec, secp256k1, base64) are taken
  as parameters; everything written in the repository itself is translated directly.
-/

set_option maxRecDepth 100000

/-! ## SHA-256 (executable, used by `bip0322_hash` and `msg_hash`) -/

/-- Truncate a natural number to a 32-bit word. -/
def w32 (n : Nat) : Nat := n % 4294967296

/-- Right rotation of a 32-bit word by `n` bits (`n ≤ 32`). -/
def rotr32 (x n : Nat) : Nat := w32 ((x >>> n) ||| (x <<< (32 - n)))

/-- SHA-256 choice function `Ch(x,y,z)`; the complement is a 32-bit xor with all ones. -/
def shaCh (x y z : Nat) : Nat := (x &&& y) ^^^ ((x ^^^ 4294967295) &&& z)

/-- SHA-256 majority function `Maj(x,y,z)`. -/
def shaMaj (x y z : Nat) : Nat := (x &&& y) ^^^ (x &&& z) ^^^ (y &&& z)

/-- SHA-256 big sigma 0. -/
def sigBig0 (x : Nat) : Nat := rotr32 x 2 ^^^ rotr32 x 13 ^^^ rotr32 x 22

/-- SHA-256 big sigma 1. -/
def sigBig1 (x : Nat) : Nat := rotr32 x 6 ^^^ rotr32 x 11 ^^^ rotr32 x 25

/-- SHA-256 small sigma 0. -/
def sigSmall0 (x : Nat) : Nat := rotr32 x 7 ^^^ rotr32 x 18 ^^^ (x >>> 3)

/-- SHA-256 small sigma 1. -/
def sigSmall1 (x : Nat) : Nat := rotr32 x 17 ^^^ rotr32 x 19 ^^^ (x >>> 10)

/-- The 64 SHA-256 round constants. -/
def sha256K : List Nat :=
  [1116352408, 1899447441, 3049323471, 3921009573, 961987163,
   1508970993, 2453635748, 2870763221, 3624381080, 310598401,
   607225278, 1426881987, 1925078388, 2162078206, 2614888103,
   3248222580, 3835390401, 4022224774, 264347078, 604807628,
   770255983, 1249150122, 1555081692, 1996064986, 2554220882,
   2821834349, 2952996808, 3210313671, 3336571891, 3584528711,
   113926993, 338241895, 666307205, 773529912, 1294757372,
   1396182291, 1695183700, 1986661051, 2177026350, 2456956037,
   2730485921, 2820302411, 3259730800, 3345764771, 3516065817,
   3600352804, 4094571909, 275423344, 430227734, 506948616,
   659060556, 883997877, 958139571, 1322822218, 1537002063,
   1747873779, 1955562222, 2024104815, 2227730452, 2361852424,
   2428436474, 2756734187, 3204031479, 3329325298]

/-- The eight SHA-256 initial hash values. -/
def sha256Init : List Nat :=
  [1779033703, 3144134277, 1013904242, 2773480762,
   1359893119, 2600822924, 528734635, 1541459225]

/-- Big-endian 8-byte encoding of a 64-bit quantity. -/
def be64 (n : Nat) : List Nat :=
  [n >>> 56 % 256, n >>> 48 % 256, n >>> 40 % 256, n >>> 32 % 256,
   n >>> 24 % 256, n >>> 16 % 256, n >>> 8 % 256, n % 256]

/-- Big-endian 4-byte encoding of a 32-bit word. -/
def be32 (n : Nat) : List Nat := [n >>> 24 % 256, n >>> 16 % 256, n >>> 8 % 256, n % 256]

/-- SHA-256 padding: append 0x80, zeros, then the 64-bit big-endian bit length. -/
def shaPad (msg : List Nat) : List Nat :=
  let len := msg.length
  let zeros := (64 - ((len + 9) % 64)) % 64
  msg ++ (128 :: List.replicate zeros 0) ++ be64 (8 * len)

/-- Group a byte list into big-endian 32-bit words. -/
def bytesToWordsBE : List Nat → List Nat
  | a :: b :: c :: d :: rest => (((a * 256 + b) * 256 + c) * 256 + d) :: bytesToWordsBE rest
  | _ => []

/-- Extend a 16-word block towards the 64-word message schedule, adding `fuel` words. -/
def scheduleAux (w : List Nat) : Nat → List Nat
  | 0 => w
  | fuel + 1 =>
    let n := w.length
    let x := w32 (sigSmall1 (w.getD (n - 2) 0) + w.getD (n - 7) 0 +
      sigSmall0 (w.getD (n - 15) 0) + w.getD (n - 16) 0)
    scheduleAux (w ++ [x]) fuel

/-- One SHA-256 compression round on an 8-word state. -/
def shaRound (s : List Nat) (kw : Nat × Nat) : List Nat :=
  match s with
  | [a, b, c, d, e, f, g, h] =>
    let t1 := w32 (h + sigBig1 e + shaCh e f g + kw.1 + kw.2)
    let t2 := w32 (sigBig0 a + shaMaj a b c)
    [w32 (t1 + t2), a, b, c, w32 (d + t1), e, f, g]
  | s => s

/-- Compress one 16-word block into the running hash state. -/
def shaCompress (h : List Nat) (block : List Nat) : List Nat :=
  let w := scheduleAux block 48
  let s := (sha256K.zip w).foldl shaRound h
  List.zipWith (fun a b => w32 (a + b)) h s

/-- Split a byte list into 64-byte chunks; `fuel` bounds the recursion. -/
def chunks64 (fuel : Nat) (l : List Nat) : List (List Nat) :=
  match fuel, l with
  | 0, _ => []
  | _, [] => []
  | f + 1, l => l.take 64 :: chunks64 f (l.drop 64)

/-- SHA-256 of a byte list, as a list of 32 bytes. -/
def sha256 (msg : List Nat) : List Nat :=
  let padded := shaPad msg
  let blocks := (chunks64 padded.length padded).map bytesToWordsBE
  let h := blocks.foldl shaCompress sha256Init
  (h.map be32).foldr (· ++ ·) []

/-- The bytes of an ASCII string (for ASCII text, UTF-8 bytes coincide with code points). -/
def strBytes (s : String) : List Nat := s.data.map (fun c => c.toNat)

/-! ## Rust slicing semantics

`rustSliceFrom v i` models the Rust expression `&v[i..]`, and `rustSlice v i j` models
`&v[i..j]`; `none` models the out-of-bounds panic. -/

/-- Rust `&v[i..]`: `none` exactly when `i > v.len()` (a panic in Rust). -/
def rustSliceFrom (v : List Nat) (i : Nat) : Option (List Nat) :=
  if i ≤ v.length then some (v.drop i) else none

/-- Rust `&v[i..j]`: `none` exactly when `i > j` or `j > v.len()` (a panic in Rust). -/
def rustSlice (v : List Nat) (i j : Nat) : Option (List Nat) :=
  if i ≤ j ∧ j ≤ v.length then some ((v.take j).drop i) else none

/-! ## Data model: `SiwbMessage` and its store (`src/siwb.rs`) -/

/-- u64 arithmetic bound. -/
def U64LIMIT : Nat := 18446744073709551616

/-- Rust `u64::saturating_add` on values below `2^64`. -/
def saturatingAddU64 (a b : Nat) : Nat := min (a + b) (U64LIMIT - 1)

/-- The process-wide configuration consulted by `SiwbMessage::new` and `login`.
Modelled from the spec: `settings.rs` is not under `src/`; §6 of the spec lists the
configuration fields `domain, uri, statement, scheme label, network label,
signInTtl(ns), sessionTtl(ns)` with no further constraints. -/
structure Settings where
  scheme : String
  domain : String
  statement : String
  uri : String
  network : String
  sign_in_expires_in : Nat
  session_expires_in : Nat
  deriving DecidableEq

/-- A SIWB challenge message (struct `SiwbMessage`, `src/siwb.rs`). Timestamps are
nanoseconds since the UNIX epoch, as u64 values. -/
structure SiwbMessage where
  scheme : String
  domain : String
  address : String
  statement : String
  uri : String
  version : Nat
  network : String
  nonce : String
  issued_at : Nat
  expiration_time : Nat
  deriving DecidableEq

/-- `SiwbMessage::new` (`src/siwb.rs`). The Rust code reads `get_current_time()` twice
(once for `issued_at` and once, earlier, for `expiration_time`); within a single IC
message execution the system time is constant, so both reads are the single value `now`.
The nonce comes from the external nonce source and is passed in. -/
def SiwbMessage.new (settings : Settings) (address : String) (nonce : String)
    (now : Nat) : SiwbMessage :=
  { scheme := settings.scheme
    domain := settings.domain
    address := address
    statement := settings.statement
    uri := settings.uri
    version := 1
    network := settings.network
    nonce := nonce
    issued_at := now
    expiration_time := saturatingAddU64 now settings.sign_in_expires_in }

/-- Keys of the challenge store: `address.script_pubkey().to_bytes()`. -/
abbrev AddressKey := List Nat

/-- The challenge store (struct `SiwbMessageMap`, `src/siwb.rs`): a map from
address-script bytes to the outstanding challenge, modelled as an association list
whose operations preserve key uniqueness. -/
structure SiwbMessageMap where
  map : List (AddressKey × SiwbMessage)
  deriving DecidableEq

/-- `SiwbMessageMap::prune_expired` (`src/siwb.rs` lines 167-171): retain exactly the
entries with `expiration_time > current_time`. -/
def SiwbMessageMap.prune_expired (m : SiwbMessageMap) (now : Nat) : SiwbMessageMap :=
  ⟨m.map.filter (fun p => now < p.2.expiration_time)⟩

/-- `SiwbMessageMap::get`: `none` models `Err(SiwbMessageError::MessageNotFound)`. -/
def SiwbMessageMap.get (m : SiwbMessageMap) (k : AddressKey) : Option SiwbMessage :=
  (m.map.find? (fun p => p.1 == k)).map (fun p => p.2)

/-- `SiwbMessageMap::remove`. -/
def SiwbMessageMap.remove (m : SiwbMessageMap) (k : AddressKey) : SiwbMessageMap :=
  ⟨m.map.filter (fun p => !(p.1 == k))⟩

/-- `SiwbMessageMap::insert`: a `HashMap` insert replaces any entry with the same key. -/
def SiwbMessageMap.insert (m : SiwbMessageMap) (k : AddressKey) (v : SiwbMessage) :
    SiwbMessageMap :=
  ⟨(k, v) :: (m.remove k).map⟩

/-- `prepare_login` (`src/login.rs` lines 77-86): build the message and store it under
the address-script key; returns the message. -/
def prepare_login (settings : Settings) (nonce : String) (now : Nat) (address : String)
    (key : AddressKey) (m : SiwbMessageMap) : SiwbMessage × SiwbMessageMap :=
  let message := SiwbMessage.new settings address nonce now
  (message, m.insert key message)

/-! ## The login orchestrator (`src/login.rs` lines 158-260)

The two verification schemes are dispatched inside `login`; their outcome is abstracted
as a function of the stored message (the signature, the supplied public key and the
claimed address are captured in that function). The delegation collaborator runs only
after the store update and never touches the store, so it is not modelled here. -/

/-- Outcome of the signature-verification dispatch inside `login`:
`mismatch` covers every path that returns `LoginError::AddressMismatch`, and
`typeNotSupported` the `BtcError::AddressTypeNotSupported` path of `Bip322Simple`. -/
inductive VerifyOutcome
  | ok
  | mismatch
  | typeNotSupported
  deriving DecidableEq

/-- Result of `login` as far as the challenge store is concerned. `challengeNotFound`
models `LoginError::SiwbMessageError(MessageNotFound)`. The success payload is the
session expiration `issued_at.saturating_add(session_expires_in)`. -/
inductive LoginResult
  | success (expiration : Nat)
  | challengeNotFound
  | addressMismatch
  | addressTypeNotSupported
  deriving DecidableEq

/-- `login` (`src/login.rs`): prune expired messages, look up the challenge for the
address key (error if absent), verify, and only then remove the message and mint the
delegation. On a verification failure the function returns early, before the
`siwb_messages.remove(&address_bytes)` call. -/
def login (settings : Settings) (verify : SiwbMessage → VerifyOutcome) (now : Nat)
    (key : AddressKey) (m : SiwbMessageMap) : SiwbMessageMap × LoginResult :=
  let m1 := m.prune_expired now
  match m1.get key with
  | none => (m1, LoginResult.challengeNotFound)
  | some message =>
    match verify message with
    | VerifyOutcome.mismatch => (m1, LoginResult.addressMismatch)
    | VerifyOutcome.typeNotSupported => (m1, LoginResult.addressTypeNotSupported)
    | VerifyOutcome.ok =>
      (m1.remove key,
       LoginResult.success (saturatingAddU64 message.issued_at settings.session_expires_in))

/-! ## Canonical textual rendering (`impl From<SiwbMessage> for String`, `src/siwb.rs`) -/

/-- The ERC-4361-style rendering of a challenge message, translated from the `format!`
call in `src/siwb.rs` lines 116-150 (the backslash line continuations in the Rust
format string splice the lines together with no extra whitespace). RFC3339 rendering of
the nanosecond timestamps is done by the external `time` crate and is a parameter. -/
def siwbMessageToString (rfc3339 : Nat → String) (val : SiwbMessage) : String :=
  val.domain ++ " wants you to sign in with your Bitcoin account:\n" ++
  val.address ++ "\n\n" ++
  val.statement ++ "\n\n" ++
  "URI: " ++ val.uri ++ "\n" ++
  "Version: " ++ toString val.version ++ "\n" ++
  "Network: " ++ val.network ++ "\n" ++
  "Nonce: " ++ val.nonce ++ "\n" ++
  "Issued At: " ++ rfc3339 val.issued_at ++ "\n" ++
  "Expiration Time: " ++ rfc3339 val.expiration_time

/-- The rendering as the specification presents it: a list of lines, joined by single
newlines, with no trailing newline. -/
def siwbMessageLines (rfc3339 : Nat → String) (val : SiwbMessage) : List String :=
  [val.domain ++ " wants you to sign in with your Bitcoin account:",
   val.address,
   "",
   val.statement,
   "",
   "URI: " ++ val.uri,
   "Version: " ++ toString val.version,
   "Network: " ++ val.network,
   "Nonce: " ++ val.nonce,
   "Issued At: " ++ rfc3339 val.issued_at,
   "Expiration Time: " ++ rfc3339 val.expiration_time]

/-! ## Address classification (`get_script_from_address`, `src/utils.rs` lines 52-96)

Rust `str::starts_with` on ASCII literals is prefix-of on the character list, so
addresses are modelled as `List Char` here. The bitcoin crate address codec
(`Address::from_str` and `Address::require_network`) is external and is a parameter. -/

/-- Bitcoin script types (the bitcoin crate `AddressType`, restricted to the variants
the repository uses). -/
inductive AddressType
  | p2pkh
  | p2sh
  | p2wpkh
  | p2wsh
  | p2tr
  deriving DecidableEq

/-- Bitcoin networks (the bitcoin crate `Network`, restricted to the variants used). -/
inductive Network
  | bitcoin
  | testnet
  | regtest
  deriving DecidableEq

/-- The prefix-driven classification at the top of `get_script_from_address`: the Rust
code initialises `network = Bitcoin`, `address_type = P2tr` and runs the if-else chain,
so an unrecognized prefix keeps the defaults. -/
def classify_address (address : List Char) : AddressType × Network :=
  if List.isPrefixOf ['b', 'c', '1', 'q'] address then (AddressType.p2wpkh, Network.bitcoin)
  else if List.isPrefixOf ['b', 'c', '1', 'p'] address then (AddressType.p2tr, Network.bitcoin)
  else if List.isPrefixOf ['1'] address then (AddressType.p2pkh, Network.bitcoin)
  else if List.isPrefixOf ['3'] address then (AddressType.p2sh, Network.bitcoin)
  else if List.isPrefixOf ['t', 'b', '1', 'q'] address then (AddressType.p2wpkh, Network.testnet)
  else if List.isPrefixOf ['m'] address || List.isPrefixOf ['n'] address then
    (AddressType.p2pkh, Network.testnet)
  else if List.isPrefixOf ['2'] address then (AddressType.p2sh, Network.testnet)
  else if List.isPrefixOf ['t', 'b', '1', 'p'] address then (AddressType.p2tr, Network.testnet)
  else (AddressType.p2tr, Network.bitcoin)

/-- The value assembled by `get_script_from_address` (struct `AddressInfo`,
`src/utils.rs`); `β` is the codec address type of the bitcoin crate. -/
structure AddressInfo (β : Type) where
  address_raw : β
  address : List Char
  script_buf : List Nat
  network : Network
  address_type : AddressType

/-- `get_script_from_address` (`src/utils.rs`): classify by prefix first, then decode
with the external codec (`fromStr`, `none` models a parse error) and require the
classified network (`requireNetwork`, `none` models a network mismatch). Both failures
surface as `Err` (the spec calls this kind `AddressFormatError`). -/
def get_script_from_address {β : Type} (fromStr : List Char → Option β)
    (requireNetwork : β → Network → Option β) (toStr : β → List Char)
    (scriptPubkey : β → List Nat) (address : List Char) :
    Except String (AddressInfo β) :=
  let tn := classify_address address
  match fromStr address with
  | none => Except.error "Cannot gen address"
  | some addr =>
    match requireNetwork addr tn.2 with
    | none => Except.error "Cannot require network"
    | some addr_checked =>
      Except.ok ⟨addr_checked, toStr addr_checked, scriptPubkey addr_checked, tn.2, tn.1⟩

/-! ## ECDSA "signmessage" digest (`BufferWriter::varint_buf_num` and `msg_hash`,
`src/login.rs` lines 269-310) -/

/-- Little-endian 2-byte encoding of a u16. -/
def le16 (n : Nat) : List Nat := [n % 256, n >>> 8 % 256]

/-- Little-endian 4-byte encoding of a u32. -/
def le32 (n : Nat) : List Nat := [n % 256, n >>> 8 % 256, n >>> 16 % 256, n >>> 24 % 256]

/-- Rust `x as i32` applied to a non-negative i64 value: keep the low 32 bits and
reinterpret them as a signed 32-bit integer. -/
def as_i32 (n : Nat) : Int :=
  if n % 4294967296 < 2147483648 then ((n % 4294967296 : Nat) : Int)
  else ((n % 4294967296 : Nat) : Int) - 4294967296

/-- `LittleEndian::write_i32`: the four little-endian bytes of the 32-bit two's
complement representation of `v`. -/
def write_i32_le (v : Int) : List Nat := le32 ((v % 4294967296).toNat)

/-- `BufferWriter::varint_buf_num` (`src/login.rs` lines 272-294). The argument is a
Rust i64; message lengths are non-negative, so it is modelled as `Nat` (below `2^63`).
In the final branch the code writes `(n & -1) as i32` (`n & -1` is `n`) as a signed
little-endian 32-bit value, then `(n / 0x100000000) as u32` little-endian. -/
def varint_buf_num (n : Nat) : List Nat :=
  if n < 253 then [n % 256]
  else if n < 65536 then 253 :: le16 n
  else if n < 4294967296 then 254 :: le32 n
  else 255 :: (write_i32_le (as_i32 n) ++ le32 (n / 4294967296 % 4294967296))

/-- The varint encoding as the specification words it: below 253 one byte; below
`0x10000` marker 253 and a little-endian u16; below `2^32` marker 254 and a
little-endian u32; otherwise marker 255 and eight bytes made of the two little-endian
32-bit halves, the low half via the signed 32-bit conversion and the high half as
`n / 2^32`. -/
def varint_spec (n : Nat) : List Nat :=
  if n < 253 then [n]
  else if n < 65536 then 253 :: le16 n
  else if n < 4294967296 then 254 :: le32 n
  else 255 :: (le32 (n % 4294967296) ++ le32 (n / 4294967296))

/-- `MAGIC_BYTES = "Bitcoin Signed Message:\n"` (`src/login.rs` line 48), 24 bytes. -/
def MAGIC_BYTES : List Nat := strBytes "Bitcoin Signed Message:\n"

/-- `_msg_hash` / `msg_hash` (`src/login.rs` lines 297-310): double SHA-256 over the
varint-prefixed magic string and message. -/
def msg_hash (message : List Nat) : List Nat :=
  let prefix1 := varint_buf_num MAGIC_BYTES.length
  let prefix2 := varint_buf_num message.length
  let buf := prefix1 ++ MAGIC_BYTES ++ prefix2 ++ message
  sha256 (sha256 buf)

/-! ## Compact signature extraction (`recover_pub_key_compact`, `src/login.rs`
lines 335-378) -/

/-- The `(v, r, s)` data extracted by `recover_pub_key_compact` before the recovery-id
computation. -/
structure CompactSigParts where
  v : Nat
  r : List Nat
  s : List Nat
  deriving DecidableEq

/-- The extraction step of `recover_pub_key_compact`: the Rust code first evaluates the
slices `signature_bytes[1..33]` and `signature_bytes[33..65]` and only afterwards tests
`signature_bytes.len() >= 65`; in the short branch it reads `v` from the top bit of
`signature_bytes[33]` and clears that bit in `s[0]`. `none` models a slice panic. -/
def recover_pub_key_compact_extract (signature_bytes : List Nat) :
    Option CompactSigParts :=
  match rustSlice signature_bytes 1 33 with
  | none => none
  | some r =>
    match rustSlice signature_bytes 33 65 with
    | none => none
    | some s0 =>
      if 65 ≤ signature_bytes.length then
        some ⟨signature_bytes.getD 0 0, r, s0⟩
      else
        let v := signature_bytes.getD 33 0 >>> 7
        let s1 := match s0 with
          | x :: rest => (x &&& 127) :: rest
          | [] => []
        some ⟨v, r, s1⟩

/-- The normalization step of `recover_pub_key_compact`: `if v < 27 { v = v + 27 }`.
For `v < 27` the u8 sum stays below 256, so `Nat` addition is the u8 addition. -/
def normalize_v (v : Nat) : Nat := if v < 27 then v + 27 else v

/-- The `while v > 3 { v = v - 4 }` loop of `calculate_sig_recovery`; the u8
subtraction cannot underflow because it only runs while `v > 3`. -/
def recoveryFold (v : Nat) : Nat :=
  if 3 < v then recoveryFold (v - 4) else v
termination_by v
decreasing_by omega

/-- `calculate_sig_recovery` (`src/login.rs` lines 384-402). In the `login` path the
argument has already been normalized to `v ≥ 27`, so the u8 subtractions `v - 27` and
`v - (chain_id * 2 + 35)` are modelled with `Nat` subtraction. -/
def calculate_sig_recovery (v : Nat) (chain_id : Option Nat) : Nat :=
  if v = 0 ∨ v = 1 then v
  else
    match chain_id with
    | none => recoveryFold (v - 27)
    | some c => recoveryFold (v - (c * 2 + 35))

/-! ## BIP-322 tagged hash (`bip0322_hash`, `src/login.rs` lines 473-481) -/

/-- The hash-tag string `"BIP0322-signed-message"`. -/
def BIP0322_TAG : List Nat := strBytes "BIP0322-signed-message"

/-- SHA-256 of a byte string. Modelled from the spec: `hash_bytes` lives in
`crate::hash` which is not under `src/`; §4.3 of the spec fixes the tagged hash to
`SHA256(SHA256(tag) ‖ SHA256(tag) ‖ message)`, so `hash_bytes` is SHA-256. -/
def hash_bytes (b : List Nat) : List Nat := sha256 b

/-- `bip0322_hash` (`src/login.rs`): hash the tag, then SHA-256 over tag hash, tag hash
and message bytes. -/
def bip0322_hash (message : List Nat) : List Nat :=
  let tag_hash := hash_bytes BIP0322_TAG
  sha256 (tag_hash ++ tag_hash ++ message)

/-! ## BIP-322 simple verification pipelines (`src/login.rs` lines 537-662)

The two verifiers are modelled structurally: the external cryptographic primitives
(schnorr/ECDSA signature and key parsing and verification, script instruction
iteration) are parameters, while every decode step, slice and early `return false`
written in the repository is translated directly. The result is `Option Bool`:
`some b` is a normal return of `b`, `none` is a panic. -/

/-- `verify_signature_of_bip322_simple_p2tr` (`src/login.rs` lines 537-594).
`output_script` is the result of `get_output_script_from_address`, which unwraps the
address decode (`none` models that unwrap panicking). `decode_base64` is the base64
crate (`none` models a decode error, mapped to `return false`). The slicings
`data[1..]` and `script_buf.to_bytes()[1..]` and `output_script.to_bytes()[2..]` are
the Rust index expressions, which panic out of range. -/
def verify_signature_of_bip322_simple_p2tr
    (output_script : Option (List Nat))
    (schnorr_sig_of : List Nat → Option (List Nat))
    (xonly_key_of : List Nat → Option (List Nat))
    (verify_schnorr : List Nat → List Nat → Bool)
    (decode_base64 : String → Option (List Nat))
    (sig : String) : Option Bool :=
  match output_script with
  | none => none
  | some output_script =>
    match decode_base64 sig with
    | none => some false
    | some data =>
      match rustSliceFrom data 1 with
      | none => none
      | some script_buf =>
        match rustSliceFrom script_buf 1 with
        | none => none
        | some sig_slice =>
          match schnorr_sig_of sig_slice with
          | none => some false
          | some signature =>
            match rustSliceFrom output_script 2 with
            | none => none
            | some b =>
              match xonly_key_of b with
              | none => some false
              | some pubkey => some (verify_schnorr signature pubkey)

/-- `verify_signature_of_bip322_simple_segwitv0` (`src/login.rs` lines 596-662).
`extract_two` models `extract_bytes_from_script` with expected size 2 followed by the
two-element destructuring (`none` is `Err`, mapped to `return false`); the signature
and key parsers and the final sighash ECDSA check are parameters. -/
def verify_signature_of_bip322_simple_segwitv0
    (output_script : Option (List Nat))
    (extract_two : List Nat → Option (List Nat × List Nat))
    (ecdsa_sig_of : List Nat → Option (List Nat))
    (pubkey_of : List Nat → Option (List Nat))
    (verify_ecdsa : List Nat → List Nat → Bool)
    (decode_base64 : String → Option (List Nat))
    (sig : String) : Option Bool :=
  match output_script with
  | none => none
  | some _output_script =>
    match decode_base64 sig with
    | none => some false
    | some data =>
      match rustSliceFrom data 1 with
      | none => none
      | some script_bytes =>
        match extract_two script_bytes with
        | none => some false
        | some parts =>
          match ecdsa_sig_of parts.1 with
          | none => some false
          | some signature =>
            match pubkey_of parts.2 with
            | none => some false
            | some pubkey => some (verify_ecdsa signature pubkey)

/-! ## Concrete instances used by the theorems below -/

/-- The output script of a P2TR address: OP_PUSHNUM_1, a 32-byte push, and the x-only
key bytes (here a placeholder key of 7-bytes). -/
def exampleP2trOutputScript : List Nat := 81 :: 32 :: List.replicate 32 7

/-- The output script of a P2WPKH address: OP_0, a 20-byte push, the key hash. -/
def exampleP2wpkhOutputScript : List Nat := 0 :: 20 :: List.replicate 20 5

/-- A base64 decoder defined only where this claim evaluates it: the base64 crate
decodes the empty string to `Ok` of the empty byte string, and "!" is a decode error. -/
def decode_base64_c2 : String → Option (List Nat) :=
  fun s => if s = "" then some [] else none

/-- An expired challenge used by the C5 witness. -/
def expiredMsgC5 : SiwbMessage :=
  ⟨"https", "example.com", "tb1qaddr", "Sign in", "https://example.com", 1, "testnet",
   "n1", 10, 40⟩

/-- A store holding only the expired challenge. -/
def storeC5 : SiwbMessageMap := ⟨[([9], expiredMsgC5)]⟩

/-- Settings used by the C5 witness. -/
def settingsC5 : Settings :=
  ⟨"https", "example.com", "Sign in", "https://example.com", "testnet",
   300000000000, 604800000000000⟩

/-- Settings with a zero sign-in TTL, allowed by the configuration model. -/
def settingsC6zero : Settings :=
  ⟨"https", "example.com", "Sign in", "https://example.com", "bitcoin", 0, 1000⟩

/-- Settings with a positive sign-in TTL for the C6 witness. -/
def settingsC6 : Settings :=
  ⟨"https", "example.com", "Sign in", "https://example.com", "bitcoin", 300, 1000⟩

/-- The challenge used by the C1 counterexample. -/
def msgC1 : SiwbMessage :=
  ⟨"https", "127.0.0.1", "bc1qxyz", "Login", "http://127.0.0.1:5173", 1, "bitcoin",
   "n123", 10, 1000⟩

/-- A store holding the C1 challenge. -/
def storeC1 : SiwbMessageMap := ⟨[([0, 1], msgC1)]⟩

/-- Settings used by the C1 theorems. -/
def settingsC1 : Settings :=
  ⟨"https", "127.0.0.1", "Login", "http://127.0.0.1:5173", "bitcoin", 990, 3000⟩

/-- The challenge used by the C1 witness. -/
def msgC1w : SiwbMessage :=
  ⟨"https", "127.0.0.1", "bc1qabc", "Login", "http://127.0.0.1:5173", 1, "bitcoin",
   "n77", 10, 1000⟩

/-- A store holding the C1 witness challenge. -/
def storeC1w : SiwbMessageMap := ⟨[([2], msgC1w)]⟩

/-! ## Helper lemmas -/

/-- The low-half bytes of the 255-marker branch: writing the signed 32-bit conversion
of a non-negative value little-endian produces exactly the little-endian bytes of its
low 32 bits. -/
theorem write_i32_le_as_i32 (n : Nat) :
    write_i32_le (as_i32 n) = le32 (n % 4294967296) := by
  have h : ((as_i32 n) % 4294967296).toNat = n % 4294967296 := by
    unfold as_i32
    split <;> omega
  unfold write_i32_le
  rw [h]

/-- The subtract-4 loop always lands in `0..3`. -/
theorem recoveryFold_le_three (v : Nat) : recoveryFold v ≤ 3 := by
  induction v using Nat.strong_induction_on with
  | _ v ih =>
    unfold recoveryFold
    split_ifs with h
    · exact ih (v - 4) (by omega)
    · omega

/-- Removing a key makes it unfindable. -/
theorem SiwbMessageMap.get_remove_self (m : SiwbMessageMap) (k : AddressKey) :
    (m.remove k).get k = none := by
  have hfind : List.find? (fun p => p.1 == k) (m.remove k).map = none := by
    rw [List.find?_eq_none]
    intro x hx
    simp only [SiwbMessageMap.remove, List.mem_filter] at hx
    simpa using hx.2
  unfold SiwbMessageMap.get
  rw [hfind]
  rfl

/-- Pruning cannot make an absent key findable. -/
theorem SiwbMessageMap.get_prune_of_get_none (m : SiwbMessageMap) (k : AddressKey)
    (now : Nat) (h : m.get k = none) : (m.prune_expired now).get k = none := by
  have hfind0 : List.find? (fun p => p.1 == k) m.map = none := by
    unfold SiwbMessageMap.get at h
    cases hf : List.find? (fun p => p.1 == k) m.map with
    | none => rfl
    | some x => rw [hf] at h; simp at h
  have hfind : List.find? (fun p => p.1 == k) (m.prune_expired now).map = none := by
    rw [List.find?_eq_none] at hfind0 ⊢
    intro x hx
    simp only [SiwbMessageMap.prune_expired, List.mem_filter] at hx
    exact hfind0 x hx.1
  unfold SiwbMessageMap.get
  rw [hfind]
  rfl

/-- If every entry stored under `k` is expired, pruning leaves nothing under `k`. -/
theorem SiwbMessageMap.get_prune_of_all_expired (m : SiwbMessageMap) (k : AddressKey)
    (now : Nat) (h : ∀ msg, (k, msg) ∈ m.map → msg.expiration_time ≤ now) :
    (m.prune_expired now).get k = none := by
  have hfind : List.find? (fun p => p.1 == k) (m.prune_expired now).map = none := by
    rw [List.find?_eq_none]
    rintro ⟨k1, msg1⟩ hx hbeq
    simp only [SiwbMessageMap.prune_expired, List.mem_filter] at hx
    have hk : k1 = k := by simpa using hbeq
    subst hk
    have h2 := h msg1 hx.1
    have h3 : now < msg1.expiration_time := by simpa using hx.2
    omega
  unfold SiwbMessageMap.get
  rw [hfind]
  rfl

/-! ## Claims -/

/-- C7: the BIP-322 tagged hash of a message equals SHA256 of the tag hash twice
followed by the message bytes, and for the message "hello" it is the 32-byte value
with hex encoding 528e990bccf82644773d67eff12fb504e84b42c8396475da8c939404f4a32385. -/
theorem claim_C7_bip0322_tagged_hash :
    (∀ message : List Nat,
      bip0322_hash message = sha256 (sha256 BIP0322_TAG ++ sha256 BIP0322_TAG ++ message)) ∧
    bip0322_hash (strBytes "hello") =
      [0x52, 0x8e, 0x99, 0x0b, 0xcc, 0xf8, 0x26, 0x44, 0x77, 0x3d, 0x67, 0xef,
       0xf1, 0x2f, 0xb5, 0x04, 0xe8, 0x4b, 0x42, 0xc8, 0x39, 0x64, 0x75, 0xda,
       0x8c, 0x93, 0x94, 0x04, 0xf4, 0xa3, 0x23, 0x85] := by
  constructor
  · intro message
    rfl
  · decide

/-- C10: with `chain_id = None`, after the normalization `if v < 27 then v + 27`,
`calculate_sig_recovery` always lands in the range `0..3` (the subtract-4 loop is
total by construction), so the `rid > 3` error branch of `recover_pub_key_compact`
is unreachable. -/
theorem claim_C10_recovery_id_in_range (v : Nat) (hv : v ≤ 255) :
    calculate_sig_recovery (normalize_v v) none ≤ 3 ∧
    ¬ 3 < calculate_sig_recovery (normalize_v v) none := by
  have h27 : 27 ≤ normalize_v v := by
    unfold normalize_v
    split <;> omega
  have hle : calculate_sig_recovery (normalize_v v) none ≤ 3 := by
    unfold calculate_sig_recovery
    split_ifs with h
    · omega
    · exact recoveryFold_le_three (normalize_v v - 27)
  exact ⟨hle, by omega⟩

/-- Witness for C10 at the byte `v = 0` (normalized to 27, recovery id 0). -/
theorem claim_C10_witness :
    (0 ≤ 255 ∧ calculate_sig_recovery (normalize_v 0) none ≤ 3) ∧
    (31 ≤ 255 ∧ calculate_sig_recovery (normalize_v 31) none ≤ 3) :=
  ⟨⟨by decide, (claim_C10_recovery_id_in_range 0 (by decide)).1⟩,
   ⟨by decide, (claim_C10_recovery_id_in_range 31 (by decide)).1⟩⟩

/-- C8: for every non-negative i64 length, `varint_buf_num` produces exactly the byte
layout the specification describes (including the signed 32-bit low-half conversion in
the 255-marker branch), and the ECDSA digest is double SHA-256 over
`varint(len(MAGIC)) ++ MAGIC ++ varint(len(message)) ++ message` with the 24-byte
magic string. -/
theorem claim_C8_varint_and_digest :
    (∀ n : Nat, n < 9223372036854775808 → varint_buf_num n = varint_spec n) ∧
    (∀ message : List Nat,
      msg_hash message =
        sha256 (sha256 (varint_buf_num 24 ++ MAGIC_BYTES ++
          varint_buf_num message.length ++ message))) := by
  constructor
  · intro n hn
    unfold varint_buf_num varint_spec
    split_ifs with h1 h2 h3
    · have : n % 256 = n := by omega
      rw [this]
    · rfl
    · rfl
    · rw [write_i32_le_as_i32]
      have : n / 4294967296 % 4294967296 = n / 4294967296 := by omega
      rw [this]
  · intro message
    rfl

/-- Witness for C8 in the 255-marker branch, `n = 2^32 + 5`. -/
theorem claim_C8_witness :
    4294967301 < 9223372036854775808 ∧ varint_buf_num 4294967301 = varint_spec 4294967301 :=
  ⟨by decide, claim_C8_varint_and_digest.1 4294967301 (by decide)⟩

/-- C3: the extraction step of `recover_pub_key_compact`. For a 65-byte signature the
extraction succeeds with `v = bytes[0]`, `r = bytes[1..33]`, `s = bytes[33..65]`; but
for a 64-byte signature the slice `signature_bytes[33..65]` is evaluated before the
length test and is out of range, so the code panics (`none`) instead of taking the
64-byte branch the claim (and the dead `else` branch in the code) describes. -/
theorem claim_C3_extraction_panics_on_64_bytes :
    recover_pub_key_compact_extract (List.replicate 64 0) = none ∧
    recover_pub_key_compact_extract (27 :: List.replicate 64 9) =
      some ⟨27, List.replicate 32 9, List.replicate 32 9⟩ := by
  constructor
  · decide
  · decide

/-- C2: the BIP-322 simple verifiers are not total in the signature string. A
signature string whose base64 decoding is empty (the empty string decodes to zero
bytes) drives both verifiers into the `data[1..]` slice, which panics (`none`) instead
of returning `false`; a plain base64 decode error, by contrast, does return `false`
as the claim says. -/
theorem claim_C2_bip322_empty_signature_panics :
    (verify_signature_of_bip322_simple_p2tr (some exampleP2trOutputScript)
      (fun l => if l.length = 64 then some l else none)
      (fun l => if l.length = 32 then some l else none)
      (fun _ _ => true) decode_base64_c2 "" = none) ∧
    (verify_signature_of_bip322_simple_segwitv0 (some exampleP2wpkhOutputScript)
      (fun _ => none) (fun l => some l) (fun l => some l)
      (fun _ _ => true) decode_base64_c2 "" = none) ∧
    (verify_signature_of_bip322_simple_p2tr (some exampleP2trOutputScript)
      (fun l => if l.length = 64 then some l else none)
      (fun l => if l.length = 32 then some l else none)
      (fun _ _ => true) decode_base64_c2 "!" = some false) ∧
    (verify_signature_of_bip322_simple_segwitv0 (some exampleP2wpkhOutputScript)
      (fun _ => none) (fun l => some l) (fun l => some l)
      (fun _ _ => true) decode_base64_c2 "!" = some false) := by
  refine ⟨by decide, by decide, by decide, by decide⟩

/-- C5: `prune_expired` keeps exactly the entries with `expiration_time > now` (so it
removes every expired entry and no unexpired one), and since `login` prunes before the
lookup, a challenge stored under the key with `expiration_time <= now` yields
`ChallengeNotFound` regardless of the verification outcome. -/
theorem claim_C5_prune_exact (now : Nat) (m : SiwbMessageMap) (k : AddressKey)
    (kv : AddressKey × SiwbMessage) (settings : Settings)
    (vf : SiwbMessage → VerifyOutcome) :
    (kv ∈ (m.prune_expired now).map ↔ kv ∈ m.map ∧ now < kv.2.expiration_time) ∧
    ((∀ msg, (k, msg) ∈ m.map → msg.expiration_time ≤ now) →
      (login settings vf now k m).2 = LoginResult.challengeNotFound) := by
  constructor
  · simp [SiwbMessageMap.prune_expired, List.mem_filter]
  · intro h
    have hget := SiwbMessageMap.get_prune_of_all_expired m k now h
    simp [login, hget]

/-- Witness for C5: at time 40 the challenge with expiration 40 is pruned and login
reports `ChallengeNotFound` even though verification would succeed. -/
theorem claim_C5_witness :
    (([9], expiredMsgC5) ∈ (storeC5.prune_expired 40).map ↔
      (([9], expiredMsgC5) ∈ storeC5.map ∧ 40 < expiredMsgC5.expiration_time)) ∧
    (login settingsC5 (fun _ => VerifyOutcome.ok) 40 [9] storeC5).2 =
      LoginResult.challengeNotFound :=
  ⟨(claim_C5_prune_exact 40 storeC5 [9] ([9], expiredMsgC5) settingsC5
      (fun _ => VerifyOutcome.ok)).1,
   (claim_C5_prune_exact 40 storeC5 [9] ([9], expiredMsgC5) settingsC5
      (fun _ => VerifyOutcome.ok)).2 (by
        intro msg hm
        simp [storeC5] at hm
        subst hm
        decide)⟩

/-- Counterexample to C6 as stated: with `signInTtl = 0` the issued message has
`expiration_time = issued_at`, so the invariant `expiration_time > issued_at` fails. -/
theorem claim_C6_counterexample :
    ¬ ((SiwbMessage.new settingsC6zero "bc1qaddr" "n0" 5).issued_at <
       (SiwbMessage.new settingsC6zero "bc1qaddr" "n0" 5).expiration_time) := by
  decide

/-- C6 (amended): provided the configured `signInTtl` is positive and `now` is below
`u64::MAX` (the expiration add saturates there), every message issued by
`prepare_login` has `issued_at = now`, `expiration_time = now + signInTtl`
(saturating) and `expiration_time > issued_at`; and the insert overwrites, so the
store holds exactly the new challenge under the key. -/
theorem claim_C6_amended (settings : Settings) (address nonce : String) (now : Nat)
    (key : AddressKey) (m : SiwbMessageMap)
    (httl : 0 < settings.sign_in_expires_in) (hnow : now < U64LIMIT - 1) :
    ((prepare_login settings nonce now address key m).1.issued_at = now ∧
     (prepare_login settings nonce now address key m).1.expiration_time =
       saturatingAddU64 now settings.sign_in_expires_in ∧
     (prepare_login settings nonce now address key m).1.issued_at <
       (prepare_login settings nonce now address key m).1.expiration_time) ∧
    ((prepare_login settings nonce now address key m).2.get key =
       some (prepare_login settings nonce now address key m).1 ∧
     ∀ v, (key, v) ∈ (prepare_login settings nonce now address key m).2.map →
       v = (prepare_login settings nonce now address key m).1) := by
  refine ⟨⟨rfl, rfl, ?_⟩, ?_, ?_⟩
  · show now < saturatingAddU64 now settings.sign_in_expires_in
    unfold U64LIMIT at hnow
    unfold saturatingAddU64 U64LIMIT
    omega
  · simp [prepare_login, SiwbMessageMap.insert, SiwbMessageMap.get]
  · intro v hv
    simp [prepare_login, SiwbMessageMap.insert, SiwbMessageMap.remove,
      List.mem_filter] at hv
    exact hv

/-- Witness for C6 (amended) at `now = 7`, `signInTtl = 300`. -/
theorem claim_C6_witness :
    (0 < settingsC6.sign_in_expires_in ∧ (7 : Nat) < U64LIMIT - 1) ∧
    (prepare_login settingsC6 "n6" 7 "bc1qaddr" [3] ⟨[]⟩).1.issued_at <
      (prepare_login settingsC6 "n6" 7 "bc1qaddr" [3] ⟨[]⟩).1.expiration_time :=
  ⟨⟨by decide, by decide⟩,
   ((claim_C6_amended settingsC6 "bc1qaddr" "n6" 7 [3] ⟨[]⟩ (by decide) (by decide)).1).2.2⟩

/-- Counterexample to C1 as stated: a login attempt whose signature verification fails
(AddressMismatch) leaves the unexpired challenge in the store, so a second login for
the same address does not return `ChallengeNotFound`. -/
theorem claim_C1_counterexample :
    (login settingsC1 (fun _ => VerifyOutcome.mismatch) 50 [0, 1] storeC1).2 =
      LoginResult.addressMismatch ∧
    (login settingsC1 (fun _ => VerifyOutcome.mismatch) 50 [0, 1]
        ((login settingsC1 (fun _ => VerifyOutcome.mismatch) 50 [0, 1] storeC1).1)).2 ≠
      LoginResult.challengeNotFound := by
  exact ⟨by decide, by decide⟩

/-- C1 (amended): the challenge is consumed only on successful verification. After a
successful login a second login for the same address returns `ChallengeNotFound` until
a fresh `prepare_login`; after a failed verification the login returns
`AddressMismatch` and the challenge is still retrievable under its key. -/
theorem claim_C1_amended (settings : Settings) (vf : SiwbMessage → VerifyOutcome)
    (now : Nat) (key : AddressKey) (m : SiwbMessageMap) (msg : SiwbMessage)
    (h : (m.prune_expired now).get key = some msg) :
    (vf msg = VerifyOutcome.ok →
      (login settings vf now key ((login settings vf now key m).1)).2 =
        LoginResult.challengeNotFound) ∧
    (vf msg = VerifyOutcome.mismatch →
      (login settings vf now key m).2 = LoginResult.addressMismatch ∧
      ((login settings vf now key m).1).get key = some msg) := by
  constructor
  · intro hok
    have hs1 : (login settings vf now key m).1 = (m.prune_expired now).remove key := by
      simp [login, h, hok]
    rw [hs1]
    have h2 : (((m.prune_expired now).remove key).prune_expired now).get key = none :=
      SiwbMessageMap.get_prune_of_get_none _ _ _ (SiwbMessageMap.get_remove_self _ _)
    simp [login, h2]
  · intro hmm
    have hs1 : (login settings vf now key m).1 = m.prune_expired now := by
      simp [login, h, hmm]
    constructor
    · simp [login, h, hmm]
    · rw [hs1]
      exact h

/-- Witness for C1 (amended): after a successful login at time 50, a second login for
the same key reports `ChallengeNotFound`. -/
theorem claim_C1_amended_witness :
    ((storeC1w.prune_expired 50).get [2] = some msgC1w ∧
     (fun _ : SiwbMessage => VerifyOutcome.ok) msgC1w = VerifyOutcome.ok) ∧
    (login settingsC1 (fun _ => VerifyOutcome.ok) 50 [2]
        ((login settingsC1 (fun _ => VerifyOutcome.ok) 50 [2] storeC1w).1)).2 =
      LoginResult.challengeNotFound :=
  ⟨⟨by decide, rfl⟩,
   (claim_C1_amended settingsC1 (fun _ => VerifyOutcome.ok) 50 [2] storeC1w msgC1w
      (by decide)).1 rfl⟩

/-- C9: the canonical rendering of a challenge message is exactly the specified lines
joined by single newlines, with no trailing newline. The RFC3339 rendering of the two
timestamps is a parameter, so the statement covers every message whose timestamps the
time crate can render. -/
theorem claim_C9_canonical_rendering (rfc3339 : Nat → String) (val : SiwbMessage) :
    siwbMessageToString rfc3339 val =
      String.intercalate "\n" (siwbMessageLines rfc3339 val) := by
  unfold siwbMessageToString siwbMessageLines
  have fuse : ∀ x y z : String, x ++ (y ++ z) = x ++ y ++ z := fun x y z =>
    (String.append_assoc x y z).symm
  have hA : ∀ r : String,
      " wants you to sign in with your Bitcoin account:" ++ ("\n" ++ r) =
      " wants you to sign in with your Bitcoin account:\n" ++ r := fun r => by
    rw [fuse]; rfl
  have hB : ∀ r : String, ("\n" : String) ++ ("\n" ++ r) = "\n\n" ++ r := fun r => by
    rw [fuse]; rfl
  have hC : ∀ r : String, ("\n\n" : String) ++ ("URI: " ++ r) = "\n\nURI: " ++ r :=
    fun r => by rw [fuse]; rfl
  have hD : ∀ r : String, ("\n" : String) ++ ("Version: " ++ r) = "\nVersion: " ++ r :=
    fun r => by rw [fuse]; rfl
  have hE : ∀ r : String, ("\n" : String) ++ ("Network: " ++ r) = "\nNetwork: " ++ r :=
    fun r => by rw [fuse]; rfl
  have hF : ∀ r : String, ("\n" : String) ++ ("Nonce: " ++ r) = "\nNonce: " ++ r :=
    fun r => by rw [fuse]; rfl
  have hG : ∀ r : String,
      ("\n" : String) ++ ("Issued At: " ++ r) = "\nIssued At: " ++ r := fun r => by
    rw [fuse]; rfl
  have hH : ∀ r : String,
      ("\n" : String) ++ ("Expiration Time: " ++ r) = "\nExpiration Time: " ++ r :=
    fun r => by rw [fuse]; rfl
  simp [String.intercalate, String.intercalate.go, String.append_assoc,
    hA, hB, hC, hD, hE, hF, hG, hH]

/-- C4: `get_script_from_address` classifies network and script type from the prefix
alone, before codec validation, exactly per the table (with any unrecognized prefix
defaulting to P2TR on mainnet), then decodes the string with the external address
codec and requires it to belong to the classified network, with a decode failure or a
network mismatch returning an error (the kind the spec calls `AddressFormatError`). -/
theorem claim_C4_address_classification {β : Type} (fromStr : List Char → Option β)
    (requireNetwork : β → Network → Option β) (toStr : β → List Char)
    (scriptPubkey : β → List Nat) (s : List Char) :
    (∀ t, classify_address (['b', 'c', '1', 'q'] ++ t) =
      (AddressType.p2wpkh, Network.bitcoin)) ∧
    (∀ t, classify_address (['b', 'c', '1', 'p'] ++ t) =
      (AddressType.p2tr, Network.bitcoin)) ∧
    (∀ t, classify_address ('1' :: t) = (AddressType.p2pkh, Network.bitcoin)) ∧
    (∀ t, classify_address ('3' :: t) = (AddressType.p2sh, Network.bitcoin)) ∧
    (∀ t, classify_address (['t', 'b', '1', 'q'] ++ t) =
      (AddressType.p2wpkh, Network.testnet)) ∧
    (∀ t, classify_address ('m' :: t) = (AddressType.p2pkh, Network.testnet)) ∧
    (∀ t, classify_address ('n' :: t) = (AddressType.p2pkh, Network.testnet)) ∧
    (∀ t, classify_address ('2' :: t) = (AddressType.p2sh, Network.testnet)) ∧
    (∀ t, classify_address (['t', 'b', '1', 'p'] ++ t) =
      (AddressType.p2tr, Network.testnet)) ∧
    (List.isPrefixOf ['b', 'c', '1', 'q'] s = false →
     List.isPrefixOf ['b', 'c', '1', 'p'] s = false →
     List.isPrefixOf ['1'] s = false →
     List.isPrefixOf ['3'] s = false →
     List.isPrefixOf ['t', 'b', '1', 'q'] s = false →
     List.isPrefixOf ['m'] s = false →
     List.isPrefixOf ['n'] s = false →
     List.isPrefixOf ['2'] s = false →
     List.isPrefixOf ['t', 'b', '1', 'p'] s = false →
     classify_address s = (AddressType.p2tr, Network.bitcoin)) ∧
    (get_script_from_address fromStr requireNetwork toStr scriptPubkey s =
      match fromStr s with
      | none => Except.error "Cannot gen address"
      | some addr =>
        match requireNetwork addr (classify_address s).2 with
        | none => Except.error "Cannot require network"
        | some addr_checked =>
          Except.ok ⟨addr_checked, toStr addr_checked, scriptPubkey addr_checked,
            (classify_address s).2, (classify_address s).1⟩) := by
  refine ⟨?_, ?_, ?_, ?_, ?_, ?_, ?_, ?_, ?_, ?_, ?_⟩
  · intro t; simp [classify_address, List.isPrefixOf]
  · intro t; simp [classify_address, List.isPrefixOf]
  · intro t; simp [classify_address, List.isPrefixOf]
  · intro t; simp [classify_address, List.isPrefixOf]
  · intro t; simp [classify_address, List.isPrefixOf]
  · intro t; simp [classify_address, List.isPrefixOf]
  · intro t; simp [classify_address, List.isPrefixOf]
  · intro t; simp [classify_address, List.isPrefixOf]
  · intro t; simp [classify_address, List.isPrefixOf]
  · intro h1 h2 h3 h4 h5 h6 h7 h8 h9
    simp [classify_address, h1, h2, h3, h4, h5, h6, h7, h8, h9]
  · rfl

/-- Witness for C4: the default branch on the unrecognized prefix "zz" and the table
branch on a "bc1q" prefix. -/
theorem claim_C4_witness :
    classify_address ['z', 'z'] = (AddressType.p2tr, Network.bitcoin) ∧
    classify_address (['b', 'c', '1', 'q'] ++ ['x']) =
      (AddressType.p2wpkh, Network.bitcoin) :=
  ⟨(claim_C4_address_classification (fun _ => (none : Option Unit)) (fun _ _ => none)
      (fun _ => []) (fun _ => []) ['z', 'z']).2.2.2.2.2.2.2.2.2.1
        (by decide) (by decide) (by decide) (by decide) (by decide) (by decide)
        (by decide) (by decide) (by decide),
   (claim_C4_address_classification (fun _ => (none : Option Unit)) (fun _ _ => none)
      (fun _ => []) (fun _ => []) ['z', 'z']).1 ['x']⟩
